import Mathlib

/-!
Verification of the 4everevents booking backend (Express server).

We shallowly embed the two request handlers that carry the repository's
logic:

* `GET /api/availability/:date` — candidate slot generation over working
  hours 09:00–18:00 at 30-minute granularity, conflict filtering against
  the busy events returned by the Google Calendar collaborator, and the
  fallback to zero busy events when the collaborator call fails;
* `POST /api/bookings` — the booking pipeline: express-validator field
  checks, booking-id generation, the `isNaN` date/time parse guard,
  best-effort calendar insert, mandatory SQLite persist, best-effort
  audit logging and email notifications, and the final JSON response.

Times of day are modelled as minutes (`Nat` for slot starts, which the
code builds from `setHours(hour, minute)` inside the working window;
`Int` for the busy events' endpoints, which come from arbitrary calendar
datetimes).  `Date.prototype.getHours` on a date `t` minutes after local
midnight is `(t / 60) % 24`.
-/

namespace FourEver

/-- A busy interval `[estart, eend)` reported by the calendar
collaborator, in minutes relative to local midnight of the queried day
(`Int`: an event may start before midnight or end after it). -/
structure CalEvent where
  estart : Int
  eend : Int
  deriving Repr, DecidableEq

/-- Working hours of the availability handler:
`const workingHours = { start: 9, end: 18 }`. -/
def workingHoursStart : Nat := 9

/-- End-of-day hour of the availability handler. -/
def workingHoursEnd : Nat := 18

/-- The candidate slot starts produced by the double loop
`for (hour = 9; hour < 18; hour++) for (minute = 0; minute < 60; minute += 30)`,
as minutes after midnight. -/
def candidateStarts : List Nat :=
  (List.range' workingHoursStart (workingHoursEnd - workingHoursStart)).flatMap
    (fun hour => [0, 30].map (fun minute => 60 * hour + minute))

/-- `slotStart < eventEnd && slotEnd > eventStart` — the conflict test of
the availability handler, for the slot `[s, s + dur)`. -/
def overlaps (s dur : Nat) (e : CalEvent) : Bool :=
  decide ((s : Int) < e.eend) && decide ((s : Int) + dur > e.estart)

/-- `existingEvents.some(event => ...)` — whether some busy event
conflicts with the candidate slot starting at `s`. -/
def hasConflict (s dur : Nat) (events : List CalEvent) : Bool :=
  events.any (overlaps s dur)

/-- `slotEnd.getHours() <= workingHours.end` — the end-of-day filter.
`slotEnd` is `s + dur` minutes after midnight, and `getHours` is the
hour-of-day component, so the test is `((s + dur) / 60) % 24 <= 18`. -/
def slotEndHourOk (s dur : Nat) : Bool :=
  ((s + dur) / 60) % 24 ≤ workingHoursEnd

/-- The slot loop of `GET /api/availability/:date`: a candidate start is
pushed onto `availableSlots` iff `!hasConflict && slotEnd.getHours() <= 18`. -/
def availableSlots (dur : Nat) (events : List CalEvent) : List Nat :=
  candidateStarts.filter (fun s => !hasConflict s dur events && slotEndHourOk s dur)

/-- The JSON body of a successful availability response (`success: true`
with the computed slot list; the `time`/`datetime` fields are derived
from the start minute, which we keep). -/
structure AvailResponse where
  success : Bool
  slots : List Nat
  deriving Repr, DecidableEq

/-- The whole availability handler, parameterised by the outcome of the
`calendar.events.list` call: on failure the inner `catch` leaves
`existingEvents = []` and the computation proceeds. -/
def availabilityHandler (dur : Nat) (calendarResult : Except Unit (List CalEvent)) :
    AvailResponse :=
  let existingEvents := match calendarResult with
    | .ok events => events
    | .error _ => []
  { success := true, slots := availableSlots dur existingEvents }

/-! ### Booking id generation (`generateBookingId`) -/

/-- The character for a base-36 digit, uppercase (as produced by
`Number.prototype.toString(36)` followed by `.toUpperCase()`). -/
def b36Char (d : Nat) : Char :=
  if d < 10 then Char.ofNat (48 + d) else Char.ofNat (55 + d)

/-- `now.toString(36).toUpperCase()` for the integer timestamp `now`
(`(0).toString(36) = "0"`). -/
def natToBase36Upper (n : Nat) : String :=
  if n = 0 then "0" else String.mk ((Nat.digits 36 n).reverse.map b36Char)

/-- `Math.random().toString(36).substring(2, 6).toUpperCase()`: the
first four base-36 fractional digits of the random draw (fewer when the
expansion terminates early, e.g. `Math.random() = 0` yields `""`). -/
def randSuffix (rand : List (Fin 36)) : String :=
  String.mk ((rand.take 4).map (fun d => b36Char d.val))

/-- `generateBookingId`: prefix `4EV`, dash, uppercase base-36
timestamp, dash, random suffix. -/
def generateBookingId (now : Nat) (rand : List (Fin 36)) : String :=
  "4EV-" ++ natToBase36Upper now ++ "-" ++ randSuffix rand

/-- Uppercase base-36 alphabet membership. -/
def isBase36UpperChar (c : Char) : Bool :=
  (decide ('0' ≤ c) && decide (c ≤ '9')) || (decide ('A' ≤ c) && decide (c ≤ 'Z'))

/-! ### Booking validation (`validateBooking` middleware) -/

/-- One element of the structured `errors` array of a 400 response
(`{ param, msg }`). -/
structure FieldIssue where
  param : String
  msg : String
  deriving Repr, DecidableEq

/-- The request body of `POST /api/bookings`. -/
structure BookingRequest where
  clientName : String
  clientEmail : String
  clientPhone : String
  eventDate : String
  eventTime : String
  eventType : String
  location : String
  message : Option String
  duration : Option Nat
  deriving Repr, DecidableEq

/-- Verdicts of the express-validator library checks whose definitions
live outside this repository (`isEmail`, `isISO8601`); the pipeline is
parameterised by them. -/
structure LibValidators where
  isEmailOk : String → Bool
  isISO8601Ok : String → Bool

/-- JS whitespace for `String.prototype.trim` (the characters relevant
to this API's inputs). -/
def isJsWs (c : Char) : Bool :=
  decide (c = ' ') || decide (c = '\t') || decide (c = '\n') || decide (c = '\r')

/-- `String.prototype.trim`: strip leading and trailing whitespace. -/
def jsTrim (s : String) : String :=
  String.mk (((s.toList.dropWhile isJsWs).reverse.dropWhile isJsWs).reverse)

/-- Both-minute-digit check shared by the two arms of the time regex. -/
def minuteDigitsOk (m1 m2 : Char) : Bool :=
  decide ('0' ≤ m1) && decide (m1 ≤ '5') && m2.isDigit

/-- The `eventTime` pattern `^([0-1]?[0-9]|2[0-3]):[0-5][0-9]$`. -/
def timeRegexOk (s : String) : Bool :=
  match s.toList with
  | [h, ':', m1, m2] => h.isDigit && minuteDigitsOk m1 m2
  | [h1, h2, ':', m1, m2] =>
      ((decide (h1 = '0') || decide (h1 = '1')) && h2.isDigit ||
        decide (h1 = '2') && decide ('0' ≤ h2) && decide (h2 ≤ '3')) &&
      minuteDigitsOk m1 m2
  | _ => false

/-- The enumerated event categories of `body('eventType').isIn([...])`. -/
def eventTypeList : List String := ["consultation", "engagement", "wedding", "followup"]

/-- The `validateBooking` express-validator chain: one issue per failing
field check, in chain order. `escape`/`normalizeEmail` are sanitisers and
cannot fail; `message` is optional with no failing check. -/
def validateBooking (lib : LibValidators) (r : BookingRequest) : List FieldIssue :=
  (if 2 ≤ (jsTrim r.clientName).length then [] else [⟨"clientName", "Invalid value"⟩]) ++
  (if lib.isEmailOk r.clientEmail then [] else [⟨"clientEmail", "Invalid value"⟩]) ++
  (if 10 ≤ (jsTrim r.clientPhone).length then [] else [⟨"clientPhone", "Invalid value"⟩]) ++
  (if lib.isISO8601Ok r.eventDate then [] else [⟨"eventDate", "Invalid value"⟩]) ++
  (if timeRegexOk r.eventTime then [] else [⟨"eventTime", "Invalid value"⟩]) ++
  (if r.eventType ∈ eventTypeList then [] else [⟨"eventType", "Invalid value"⟩]) ++
  (if 3 ≤ (jsTrim r.location).length then [] else [⟨"location", "Invalid value"⟩]) ++
  (match r.duration with
   | none => []
   | some d => if 30 ≤ d ∧ d ≤ 720 then [] else [⟨"duration", "Invalid value"⟩])

/-! ### The booking pipeline (`POST /api/bookings`) -/

/-- The observable side effects of one run of the handler, in program
order. An `auditLog` effect is recorded only when the audit insert
succeeds (a failing insert is caught and swallowed); the two email sends
are attempts whose failures are likewise swallowed. -/
inductive Effect where
  | generateId
  | calendarInsertAttempt
  | persistBooking (calendarEventId : Option String)
  | auditLog (event : String)
  | sendClientEmail
  | sendBusinessEmail
  deriving Repr, DecidableEq

/-- The four JSON response shapes of `POST /api/bookings`. -/
inductive BookingResponse where
  | validationFailed (issues : List FieldIssue)
  | invalidDateTime
  | serverError
  | created (bookingId : String) (calendarEventId : Option String)
  deriving Repr, DecidableEq

/-- The HTTP status of a response. -/
def statusOf : BookingResponse → Nat
  | .validationFailed _ => 400
  | .invalidDateTime => 400
  | .serverError => 500
  | .created _ _ => 200

/-- The `success` field of a response body. -/
def successOf : BookingResponse → Bool
  | .created _ _ => true
  | _ => false

/-- The single `error` string of a response body, when present. -/
def errorMsgOf : BookingResponse → Option String
  | .invalidDateTime => some "Invalid date/time format"
  | .serverError => some "Failed to create booking"
  | _ => none

/-- Outcomes of the handler's nondeterministic collaborators for one
request: the clock and random draw feeding `generateBookingId`, the
value of `new Date(dateStr + 'T' + eventTime + ':00')` (`none` when
`NaN`), the calendar insert outcome, and whether the SQLite insert into
`bookings` and `audit_logs` succeed. -/
structure BookingEnv where
  now : Nat
  rand : List (Fin 36)
  parsedStart : Option Int
  calendarInsert : Except Unit String
  persistOk : Bool
  auditOk : Bool

/-- The `POST /api/bookings` handler: validation, id generation, the
`isNaN(eventStart.getTime())` guard, best-effort calendar insert,
mandatory persist (failure hits the outer catch → 500), best-effort
`booking_created` audit, best-effort client and business emails, then
the success response. Returns the response and the effect trace in
program order. -/
def bookingPipeline (lib : LibValidators) (env : BookingEnv) (r : BookingRequest) :
    BookingResponse × List Effect :=
  let issues := validateBooking lib r
  if issues.isEmpty then
    let bookingId := generateBookingId env.now env.rand
    match env.parsedStart with
    | none => (.invalidDateTime, [.generateId])
    | some _ =>
      let calendarEventId := match env.calendarInsert with
        | .ok cid => some cid
        | .error _ => none
      if env.persistOk then
        (.created bookingId calendarEventId,
          [.generateId, .calendarInsertAttempt, .persistBooking calendarEventId] ++
            (if env.auditOk then [.auditLog "booking_created"] else []) ++
            [.sendClientEmail, .sendBusinessEmail])
      else
        (.serverError, [.generateId, .calendarInsertAttempt])
  else
    (.validationFailed issues,
      if env.auditOk then [.auditLog "validation_failed"] else [])

/-- Whether an effect is the `bookings`-row insert. -/
def isPersist : Effect → Bool
  | .persistBooking _ => true
  | _ => false

/-- How many `bookings` rows a trace persists. -/
def persistCount (tr : List Effect) : Nat := (tr.filter isPersist).length


/-! ### Concrete fixtures used by witnesses and counterexamples -/

/-- Library validators that accept everything (their verdicts are
irrelevant to the claims below). -/
def okLib : LibValidators := ⟨fun _ => true, fun _ => true⟩

/-- A request that passes every field check. -/
def goodReq : BookingRequest :=
  { clientName := "Jane Doe", clientEmail := "jane@example.com",
    clientPhone := "5551234567", eventDate := "2025-08-20",
    eventTime := "10:00", eventType := "consultation",
    location := "Studio LA", message := none, duration := some 60 }

/-- `goodReq` with the out-of-enumeration event type `brunch`. -/
def brunchReq : BookingRequest := { goodReq with eventType := "brunch" }

/-- An environment where every collaborator succeeds. -/
def goodEnv : BookingEnv :=
  { now := 1755600000000,
    rand := [⟨10, by omega⟩, ⟨11, by omega⟩, ⟨12, by omega⟩, ⟨13, by omega⟩],
    parsedStart := some 600, calendarInsert := .ok "cal-evt-1",
    persistOk := true, auditOk := true }

/-- `goodEnv` with the calendar insert failing. -/
def calFailEnv : BookingEnv := { goodEnv with calendarInsert := .error () }

/-- `goodEnv` with the date/time parse yielding `NaN`. -/
def nanEnv : BookingEnv := { goodEnv with parsedStart := none }

/-! ### Availability lemmas -/

/-- Every candidate start lies between 09:00 and 17:30 (minutes). -/
lemma candidateStarts_bounds : ∀ s ∈ candidateStarts, 540 ≤ s ∧ s ≤ 1050 := by
  decide

/-- The candidate start `540 + 30*k` is produced by the loop for `k ≤ 17`. -/
lemma mem_candidateStarts_of_le (k : Nat) (hk : k ≤ 17) :
    540 + 30 * k ∈ candidateStarts := by
  interval_cases k <;> decide

/-- Membership in the slot list, unfolded. -/
lemma mem_availableSlots (dur : Nat) (events : List CalEvent) (s : Nat) :
    s ∈ availableSlots dur events ↔
      s ∈ candidateStarts ∧ hasConflict s dur events = false ∧
        slotEndHourOk s dur = true := by
  simp [availableSlots, List.mem_filter, Bool.and_eq_true]

/-- With no busy events the conflict check always fails. -/
lemma hasConflict_nil (s dur : Nat) : hasConflict s dur [] = false := rfl

/-- The conflict check succeeds iff some event half-open-overlaps the slot. -/
lemma hasConflict_iff (s dur : Nat) (events : List CalEvent) :
    hasConflict s dur events = true ↔
      ∃ e ∈ events, (s : Int) < e.eend ∧ (s : Int) + dur > e.estart := by
  simp [hasConflict, overlaps, List.any_eq_true, Bool.and_eq_true]

/-- For every duration some candidate start passes the end-hour filter:
the 18 candidate ends span 510 minutes, more than the 300-minute window
of end times whose hour-of-day exceeds 18, so they cannot all miss. -/
lemma exists_endHourOk (dur : Nat) :
    ∃ k, k ≤ 17 ∧ slotEndHourOk (540 + 30 * k) dur = true := by
  unfold slotEndHourOk workingHoursEnd
  by_cases h : (540 + dur) % 1440 < 1140
  · exact ⟨0, by omega, by simp; omega⟩
  · exact ⟨(1440 - (540 + dur) % 1440 + 29) / 30, by omega, by simp; omega⟩

/-! ### Claims about the availability handler -/

/-- **C1, counterexample.** With duration 60 and no busy events the slot
starting at 17:30 (minute 1050) is returned, although
`slot.start + 60 = 18:30` is past the configured end of day 18:00: the
claim `slot.start + M <= workingHoursEnd(D)` fails. -/
theorem C1_counterexample :
    1050 ∈ availableSlots 60 [] ∧ ¬ (1050 + 60 ≤ workingHoursEnd * 60) := by
  decide

/-- **C1, amended.** Every returned slot starts within working hours
(`s ≥ 09:00` and `s ≤ 17:30 < 18:00`), and a candidate start is retained
only if the *hour-of-day component* of `slot.start + M` is at most 18
(the code tests `slotEnd.getHours() <= workingHours.end`, not
`slot.start + M <= 18:00`; the slot's end may therefore reach 18:59, or
even wrap past midnight for large durations). -/
theorem C1_amended (dur : Nat) (events : List CalEvent) (s : Nat)
    (h : s ∈ availableSlots dur events) :
    workingHoursStart * 60 ≤ s ∧ s < workingHoursEnd * 60 ∧
      slotEndHourOk s dur = true := by
  rw [mem_availableSlots] at h
  obtain ⟨hc, -, hok⟩ := h
  have := candidateStarts_bounds s hc
  refine ⟨?_, ?_, hok⟩ <;> simp [workingHoursStart, workingHoursEnd] <;> omega

/-- Witness for `C1_amended` at duration 60, no events, slot 09:00. -/
theorem C1_amended_witness :
    workingHoursStart * 60 ≤ 540 ∧ 540 < workingHoursEnd * 60 ∧
      slotEndHourOk 540 60 = true :=
  C1_amended 60 [] 540 (by decide)

/-- **C3.** A candidate start that passes the end-hour filter is returned
iff no busy event `[eStart, eEnd)` satisfies `s < eEnd ∧ s + M > eStart`
(half-open overlap; touching boundaries do not conflict), and no returned
slot overlaps any busy interval. -/
theorem C3_conflict_filter (dur : Nat) (events : List CalEvent) (s : Nat)
    (hs : s ∈ candidateStarts) (hend : slotEndHourOk s dur = true) :
    (s ∈ availableSlots dur events ↔
      ¬ ∃ e ∈ events, (s : Int) < e.eend ∧ (s : Int) + dur > e.estart)
    ∧ ∀ t ∈ availableSlots dur events, ∀ e ∈ events,
        ¬ ((t : Int) < e.eend ∧ (t : Int) + dur > e.estart) := by
  constructor
  · rw [mem_availableSlots, ← hasConflict_iff]
    constructor
    · rintro ⟨-, hcf, -⟩
      simp [hcf]
    · intro hnc
      exact ⟨hs, by simpa using hnc, hend⟩
  · intro t ht e he hov
    rw [mem_availableSlots] at ht
    have : hasConflict t dur events = true :=
      (hasConflict_iff t dur events).mpr ⟨e, he, hov⟩
    rw [ht.2.1] at this
    exact Bool.false_ne_true this

/-- Witness for `C3_conflict_filter`: duration 60, one busy event
10:00–10:30, candidate 09:00. -/
theorem C3_conflict_filter_witness :
    ((540 : Nat) ∈ availableSlots 60 [⟨600, 630⟩] ↔
      ¬ ∃ e ∈ [(⟨600, 630⟩ : CalEvent)],
          ((540 : Nat) : Int) < e.eend ∧ ((540 : Nat) : Int) + 60 > e.estart)
    ∧ ∀ t ∈ availableSlots 60 [⟨600, 630⟩], ∀ e ∈ [(⟨600, 630⟩ : CalEvent)],
        ¬ ((t : Int) < e.eend ∧ (t : Int) + 60 > e.estart) :=
  C3_conflict_filter 60 [⟨600, 630⟩] 540 (by decide) (by decide)

/-- **C4.** When the calendar collaborator call fails, the handler
proceeds with zero busy intervals: the response is `success: true` and
the slot list is the candidate sequence filtered only by the end-hour
rule — no conflict filtering occurs. -/
theorem C4_calendar_failure_fallback (dur : Nat) :
    (availabilityHandler dur (.error ())).success = true ∧
    (availabilityHandler dur (.error ())).slots = availableSlots dur [] ∧
    availableSlots dur [] = candidateStarts.filter (fun s => slotEndHourOk s dur) := by
  refine ⟨rfl, rfl, ?_⟩
  unfold availableSlots
  apply List.filter_congr
  intro s _
  rw [hasConflict_nil]
  rfl

/-- **C6, counterexample.** With duration 570 every candidate start's
remaining working window is exceeded (`18:00 < s + 570` for all
candidates), yet with zero busy events the computed sequence is *not*
empty: the 09:00 slot survives because its end 18:30 still has
hour-of-day 18. -/
theorem C6_counterexample :
    (∀ s ∈ candidateStarts, workingHoursEnd * 60 < s + 570) ∧
      availableSlots 570 [] ≠ [] := by
  decide

/-- **C6, amended.** The computation never errors, but the sequence is
not empty either: for *every* duration, with zero busy events, some
candidate start passes the end-hour filter (the slot end's hour-of-day
can wrap below 19 even when the duration exceeds every remaining
window). -/
theorem C6_amended (dur : Nat) : availableSlots dur [] ≠ [] := by
  obtain ⟨k, hk, hok⟩ := exists_endHourOk dur
  apply List.ne_nil_of_mem (a := 540 + 30 * k)
  rw [mem_availableSlots]
  exact ⟨mem_candidateStarts_of_le k hk, hasConflict_nil _ _, hok⟩

/-- **C7.** Date 2025-08-20, duration 60, zero busy events: exactly the
18 slots 09:00 (540) through 17:30 (1050) at 30-minute steps, strictly
ascending. -/
theorem C7_scenario_60min :
    availableSlots 60 [] =
      [540, 570, 600, 630, 660, 690, 720, 750, 780, 810, 840, 870, 900,
       930, 960, 990, 1020, 1050] ∧
    availableSlots 60 [] = (List.range 18).map (fun k => 540 + 30 * k) ∧
    (availableSlots 60 []).length = 18 ∧
    (availableSlots 60 []).Pairwise (· < ·) := by
  decide

/-! ### Booking id format lemmas -/

/-- Every base-36 digit maps into the uppercase alphabet. -/
lemma b36Char_isBase36 (d : Nat) (hd : d < 36) :
    isBase36UpperChar (b36Char d) = true := by
  interval_cases d <;> decide

/-- The timestamp component is nonempty. -/
lemma natToBase36Upper_length (n : Nat) : 1 ≤ (natToBase36Upper n).length := by
  unfold natToBase36Upper
  split
  · decide
  · rename_i h
    show 1 ≤ ((Nat.digits 36 n).reverse.map b36Char).length
    rw [List.length_map, List.length_reverse]
    exact List.length_pos.mpr (Nat.digits_ne_nil_iff_ne_zero.mpr h)

/-- Every character of the timestamp component is uppercase base-36. -/
lemma natToBase36Upper_chars (n : Nat) :
    ∀ c ∈ (natToBase36Upper n).toList, isBase36UpperChar c = true := by
  intro c hc
  unfold natToBase36Upper at hc
  split at hc
  · simp only [show ("0" : String).toList = ['0'] from rfl, List.mem_singleton] at hc
    subst hc
    decide
  · obtain ⟨d, hd, rfl⟩ := List.mem_map.mp hc
    exact b36Char_isBase36 d
      (Nat.digits_lt_base (by norm_num) (List.mem_reverse.mp hd))

/-! ### Claims about the booking pipeline -/

/-- **C2.** If the request passes validation and the calendar insert
fails, the pipeline continues: the response is `success: true` with
`calendar_event_id: null`, and exactly one `bookings` row is persisted. -/
theorem C2_calendar_failure_not_fatal (lib : LibValidators) (env : BookingEnv)
    (r : BookingRequest) (t : Int)
    (hv : validateBooking lib r = []) (hp : env.parsedStart = some t)
    (hcal : env.calendarInsert = .error ()) (hpersist : env.persistOk = true) :
    (bookingPipeline lib env r).1 =
      .created (generateBookingId env.now env.rand) none ∧
    successOf (bookingPipeline lib env r).1 = true ∧
    persistCount (bookingPipeline lib env r).2 = 1 := by
  cases ha : env.auditOk <;>
    simp [bookingPipeline, hv, hp, hcal, hpersist, ha, persistCount, isPersist,
      successOf, List.filter_append]

/-- Witness for `C2_calendar_failure_not_fatal`: the all-good fixture
with the calendar insert failing. -/
theorem C2_calendar_failure_not_fatal_witness :
    (bookingPipeline okLib calFailEnv goodReq).1 =
      .created (generateBookingId calFailEnv.now calFailEnv.rand) none ∧
    successOf (bookingPipeline okLib calFailEnv goodReq).1 = true ∧
    persistCount (bookingPipeline okLib calFailEnv goodReq).2 = 1 :=
  C2_calendar_failure_not_fatal okLib calFailEnv goodReq 600 (by decide) rfl rfl rfl

/-- The `eventType` check contributes its issue whenever the submitted
type is outside the enumerated set, whatever the other fields hold. -/
lemma eventType_issue_mem (lib : LibValidators) (r : BookingRequest)
    (h : r.eventType ∉ eventTypeList) :
    (⟨"eventType", "Invalid value"⟩ : FieldIssue) ∈ validateBooking lib r := by
  unfold validateBooking
  simp [h]

/-- **C5.** A request with `eventType: "brunch"` is rejected: HTTP 400,
`success: false`, a per-field issue naming `eventType`; the only effect
is the best-effort `validation_failed` audit record (here: the audit
insert succeeds) — no persist, no calendar attempt, no emails. -/
theorem C5_unknown_eventType_rejected (lib : LibValidators) (env : BookingEnv)
    (r : BookingRequest) (ht : r.eventType = "brunch") (ha : env.auditOk = true) :
    ∃ issues, (bookingPipeline lib env r).1 = .validationFailed issues ∧
      statusOf (.validationFailed issues) = 400 ∧
      successOf (.validationFailed issues) = false ∧
      (∃ i ∈ issues, i.param = "eventType") ∧
      (bookingPipeline lib env r).2 = [.auditLog "validation_failed"] := by
  have hne : r.eventType ∉ eventTypeList := by rw [ht]; decide
  have hmem := eventType_issue_mem lib r hne
  have hni : (validateBooking lib r).isEmpty = false := by
    cases hE : validateBooking lib r
    · rw [hE] at hmem
      exact absurd hmem (List.not_mem_nil _)
    · rfl
  exact ⟨validateBooking lib r, by simp [bookingPipeline, hni], rfl, rfl,
    ⟨_, hmem, rfl⟩, by simp [bookingPipeline, hni, ha]⟩

/-- Witness for `C5_unknown_eventType_rejected`: the fixture request with
`eventType: "brunch"` in the all-good environment. -/
theorem C5_unknown_eventType_rejected_witness :
    ∃ issues, (bookingPipeline okLib goodEnv brunchReq).1 = .validationFailed issues ∧
      statusOf (.validationFailed issues) = 400 ∧
      successOf (.validationFailed issues) = false ∧
      (∃ i ∈ issues, i.param = "eventType") ∧
      (bookingPipeline okLib goodEnv brunchReq).2 = [.auditLog "validation_failed"] :=
  C5_unknown_eventType_rejected okLib goodEnv brunchReq rfl rfl

/-- **C8, counterexample.** On a fully successful run the
`booking_created` audit record is appended immediately after the persist
and *before* the two notification sends, contrary to the claimed order
(persist → notify client → notify business → audit). -/
theorem C8_counterexample :
    (bookingPipeline okLib goodEnv goodReq).2 =
      [.generateId, .calendarInsertAttempt, .persistBooking (some "cal-evt-1"),
       .auditLog "booking_created", .sendClientEmail, .sendBusinessEmail] ∧
    (bookingPipeline okLib goodEnv goodReq).2.indexOf (.auditLog "booking_created") <
      (bookingPipeline okLib goodEnv goodReq).2.indexOf .sendClientEmail := by
  decide

/-- **C8, amended.** On a validated, parseable, successfully persisted
and successfully audited run the effect order is: generate id, calendar
attempt, persist, `booking_created` audit, notify client, notify
business — the audit precedes the notifications. -/
theorem C8_amended (lib : LibValidators) (env : BookingEnv) (r : BookingRequest)
    (t : Int) (hv : validateBooking lib r = []) (hp : env.parsedStart = some t)
    (hpersist : env.persistOk = true) (ha : env.auditOk = true) :
    ∃ cid : Option String,
      (bookingPipeline lib env r).2 =
        [.generateId, .calendarInsertAttempt, .persistBooking cid,
         .auditLog "booking_created", .sendClientEmail, .sendBusinessEmail] := by
  refine ⟨match env.calendarInsert with | .ok c => some c | .error _ => none, ?_⟩
  cases hc : env.calendarInsert <;>
    simp [bookingPipeline, hv, hp, hpersist, ha, hc]

/-- Witness for `C8_amended`: the all-good fixture run. -/
theorem C8_amended_witness :
    ∃ cid : Option String,
      (bookingPipeline okLib goodEnv goodReq).2 =
        [.generateId, .calendarInsertAttempt, .persistBooking cid,
         .auditLog "booking_created", .sendClientEmail, .sendBusinessEmail] :=
  C8_amended okLib goodEnv goodReq 600 (by decide) rfl rfl rfl

/-- **C9.** Every generated booking identifier is `4EV-`, then a
nonempty uppercase base-36 timestamp component, then `-`, then an
uppercase base-36 suffix of at most four characters; the generator is a
total function (it never throws). -/
theorem C9_id_format (now : Nat) (rand : List (Fin 36)) :
    ∃ t r : String,
      generateBookingId now rand = "4EV-" ++ t ++ "-" ++ r ∧
      1 ≤ t.length ∧ (∀ c ∈ t.toList, isBase36UpperChar c = true) ∧
      r.length ≤ 4 ∧ ∀ c ∈ r.toList, isBase36UpperChar c = true := by
  refine ⟨natToBase36Upper now, randSuffix rand, rfl,
    natToBase36Upper_length now, natToBase36Upper_chars now, ?_, ?_⟩
  · show ((rand.take 4).map (fun d => b36Char d.val)).length ≤ 4
    rw [List.length_map, List.length_take]
    omega
  · intro c hc
    obtain ⟨d, _, rfl⟩ := List.mem_map.mp hc
    exact b36Char_isBase36 d.val d.isLt

/-- **C10.** If validation passes but the concatenated date/time does
not parse (`isNaN`), the handler answers 400 with the single error
string `Invalid date/time format`: the id was generated, but there is no
calendar attempt, no persisted row and no audit record. -/
theorem C10_nan_datetime_guard (lib : LibValidators) (env : BookingEnv)
    (r : BookingRequest) (hv : validateBooking lib r = [])
    (hp : env.parsedStart = none) :
    (bookingPipeline lib env r).1 = .invalidDateTime ∧
    statusOf (bookingPipeline lib env r).1 = 400 ∧
    successOf (bookingPipeline lib env r).1 = false ∧
    errorMsgOf (bookingPipeline lib env r).1 = some "Invalid date/time format" ∧
    (bookingPipeline lib env r).2 = [.generateId] := by
  simp [bookingPipeline, hv, hp, statusOf, successOf, errorMsgOf]

/-- Witness for `C10_nan_datetime_guard`: the fixture request with a
`NaN` parse. -/
theorem C10_nan_datetime_guard_witness :
    (bookingPipeline okLib nanEnv goodReq).1 = .invalidDateTime ∧
    statusOf (bookingPipeline okLib nanEnv goodReq).1 = 400 ∧
    successOf (bookingPipeline okLib nanEnv goodReq).1 = false ∧
    errorMsgOf (bookingPipeline okLib nanEnv goodReq).1 =
      some "Invalid date/time format" ∧
    (bookingPipeline okLib nanEnv goodReq).2 = [.generateId] :=
  C10_nan_datetime_guard okLib nanEnv goodReq (by decide) rfl

end FourEver
